import Mathlib

/-!
A shallow embedding of the lastcron-sdk flow-execution harness
(src/lastcron_sdk/flow.py, logger.py, client.py) in Lean 4, together with
theorems settling the frozen claims about it.

Conventions of the embedding:
* Python module-level globals (CLIENT, LOGGER, WORKSPACE_ID) and the
  class-level attributes of FlowContext become fields of an explicit
  ProcState record threaded through the operations.
* Network calls are externalized: every function that performs an API
  request takes the response of that request as an explicit oracle
  parameter (the remote orchestrator is out of scope, specified only by
  interface).
* Raising an exception becomes an Except.error or a RunResult.raised
  value; sys.exit(n) becomes RunResult.exited n.
* Wall-clock timestamps and traceback texts are nondeterministic inputs
  and are passed as parameters.
* Emitted side effects (status updates, locally printed or remotely
  forwarded log lines, the user function starting to run) are collected
  in an event trace.
-/

namespace LastcronSDK

/-- Modelled from the spec: the Block record of lastcron_sdk/types.py, whose
source is not under src/ (only importers reference it). Spec section 3: id,
nullable workspace id, key name, type tag, value (decrypted if secret),
secret flag. Timestamps are omitted (no claim mentions them). -/
structure Block where
  id : Nat
  workspace_id : Option Nat
  key_name : String
  type_tag : String
  value : String
  is_secret : Bool
deriving DecidableEq, Repr

/-- Modelled from the spec: the FlowRun record of lastcron_sdk/types.py, whose
source is not under src/. Spec section 3: id, flow id, workspace id, state,
parameters, optional scheduled-start. Started/completed timestamps, exit code
and message are omitted (no claim mentions them). Parameter values are
abstracted to strings. -/
structure FlowRun where
  id : Nat
  flow_id : Nat
  workspace_id : Nat
  state : String
  parameters : List (String × String)
  scheduled_start : Option String
deriving DecidableEq, Repr

/-- The JSON body sent by OrchestratorLogger.log to the remote client
(logger.py lines 26-30). -/
structure LogEntry where
  log_time : String
  level : String
  message : String
deriving DecidableEq, Repr

namespace OrchestratorLogger

/-- Embeds OrchestratorLogger.log (src/lastcron_sdk/logger.py lines 17-33).
The current wall-clock ISO timestamp is the parameter ts. The function
formats a local line printed to stdout/stderr and builds the entry forwarded
via client.send_log_entry; both are returned. The message is passed through
verbatim: the class keeps no denylist of secret values and performs no
substitution on the message. -/
def log (ts : String) (level : String) (message : String) : String × LogEntry :=
  ("[" ++ ts ++ "][" ++ level ++ "] " ++ message,
   { log_time := ts, level := level, message := message })

end OrchestratorLogger

/-- True when the string pat occurs as a contiguous substring of s. -/
def strContains (s pat : String) : Bool :=
  s.toList.tails.any (fun t => pat.toList.isPrefixOf t)

/-- C1. For every secret Block fetched during a process, every log line
emitted afterward via OrchestratorLogger.log has each occurrence of the
secret literal value replaced by the mask token **** in both the locally
printed line and the entry forwarded to the remote client. This is false of
the code: logger.py keeps no secret denylist and performs no replacement, so
a message containing the secret value hunter2 of a fetched secret Block is
printed and forwarded verbatim, unmasked. -/
theorem log_emits_secret_value_unmasked :
    strContains (OrchestratorLogger.log "2024-01-01T00:00:00" "INFO"
      "Using API key: hunter2").1 "hunter2" = true ∧
    strContains (OrchestratorLogger.log "2024-01-01T00:00:00" "INFO"
      "Using API key: hunter2").2.message "hunter2" = true ∧
    strContains (OrchestratorLogger.log "2024-01-01T00:00:00" "INFO"
      "Using API key: hunter2").1 "****" = false ∧
    strContains (OrchestratorLogger.log "2024-01-01T00:00:00" "INFO"
      "Using API key: hunter2").2.message "****" = false ∧
    (OrchestratorLogger.log "2024-01-01T00:00:00" "INFO"
      "Using API key: hunter2").2.message = "Using API key: hunter2" := by
  decide

/-- The three orchestration environment variables, each possibly unset
(ORCH_RUN_ID, ORCH_TOKEN, ORCH_API_BASE_URL). -/
structure Env where
  run_id : Option String
  token : Option String
  api_base : Option String
deriving DecidableEq, Repr

/-- Python truthiness of an optional string: None and the empty string are
falsy. -/
def truthy : Option String → Bool
  | none => false
  | some s => s ≠ ""

/-- Embeds the check all([run_id, token, api_base]) of flow.py line 166. -/
def envComplete (env : Env) : Bool :=
  truthy env.run_id && truthy env.token && truthy env.api_base

/-- The run-details document fetched from GET runs/run_id (client.py line
31-33), as consumed by the wrapper (flow.py lines 180-194). A falsy (None or
empty) response is represented by Option.none at the call site. -/
structure Details where
  parameters : List (String × String)
  blocks : List Block
  workspace_id : Option Nat
  flow_entrypoint : String
deriving DecidableEq, Repr

/-- The process-wide mutable state of the module flow.py: the globals CLIENT
(represented by the run id it was constructed with), LOGGER and WORKSPACE_ID,
and the class-level attributes of FlowContext. The field ctxClassInit is the
class attribute FlowContext.initialized (flow.py line 23); ctxClassLogger
records whether a class-level attribute FlowContext.logger has been assigned
(line 26 is only an annotation, so it starts out absent). -/
structure ProcState where
  client : Option String
  loggerSet : Bool
  workspaceId : Option Nat
  ctxClassInit : Bool
  ctxClassLogger : Bool
deriving DecidableEq, Repr

/-- The state of a freshly started Python process after importing
lastcron_sdk.flow. -/
def initialState : ProcState :=
  { client := none, loggerSet := false, workspaceId := none,
    ctxClassInit := false, ctxClassLogger := false }

/-- A FlowContext instance as built by FlowContext.__init__ (flow.py lines
29-40): note that self.initialized = True sets an attribute on the instance
only; the class attribute is untouched. -/
structure FlowContextObj where
  initialized : Bool
  parameters : List (String × String)
  blocks : List Block
  workspaceId : Option Nat
deriving DecidableEq, Repr

namespace FlowContext

/-- Embeds FlowContext.from_dict (flow.py lines 42-49): constructs an
instance via __init__, which sets the instance attribute initialized to
True. The process state is not an argument because the constructor writes
no class-level or global state. -/
def from_dict (d : Details) : FlowContextObj :=
  { initialized := true, parameters := d.parameters, blocks := d.blocks,
    workspaceId := d.workspace_id }

end FlowContext

/-- Embeds get_run_logger (flow.py lines 293-300): tests the class attribute
FlowContext.initialized; on success it would read the class attribute
FlowContext.logger, which raises AttributeError if it was never assigned. -/
def get_run_logger (s : ProcState) : Except String Unit :=
  if s.ctxClassInit then
    if s.ctxClassLogger then .ok ()
    else .error "AttributeError: type object FlowContext has no attribute logger"
  else
    .error "Flow context not initialized. Ensure the flow decorator is used."

/-- The keyword-parameter shape of a Python function definition: the named
parameters it declares, and whether it declares a catch-all **kwargs. -/
structure PySignature where
  keywords : List String
  hasKwargs : Bool
deriving DecidableEq, Repr

/-- A value passed as a keyword argument by the wrapper (flow.py lines
189-194): the parameters mapping, the raw blocks list, the logger object, or
the workspace id. -/
inductive ArgVal where
  | params (p : List (String × String))
  | blockList (b : List Block)
  | loggerObj
  | wsid (w : Option Nat)
deriving DecidableEq, Repr

/-- Embeds flow_kwargs (flow.py lines 189-194): the wrapper unconditionally
builds exactly these four keyword arguments from the fetched details. -/
def flowKwargs (d : Details) (w : Option Nat) : List (String × ArgVal) :=
  [("parameters", .params d.parameters), ("blocks", .blockList d.blocks),
   ("logger", .loggerObj), ("workspace_id", .wsid w)]

/-- Whether a Python call passing exactly the keyword arguments ks is
accepted by a function of signature sig: every passed keyword must be a
declared parameter or be absorbed by **kwargs, else the call raises
TypeError before the body runs. -/
def acceptsKeywords (sig : PySignature) (ks : List String) : Bool :=
  ks.all (fun k => sig.hasKwargs || sig.keywords.contains k)

/-- What the body of the user function does once it actually runs. -/
inductive UserOutcome where
  | normal
  | raises (msg : String)
deriving DecidableEq, Repr

/-- Outcome of the call func(**flow_kwargs) at flow.py line 203. -/
inductive CallOutcome where
  | accepted (received : List (String × ArgVal)) (o : UserOutcome)
  | typeError (m : String)
deriving DecidableEq, Repr

/-- Embeds the call func(**flow_kwargs) (flow.py line 203): the four fixed
keywords are passed; if the signature does not accept them the interpreter
raises TypeError and the body never runs; otherwise the body receives
exactly these keyword arguments and runs to its outcome. -/
def callUser (sig : PySignature) (kw : List (String × ArgVal))
    (body : UserOutcome) : CallOutcome :=
  if acceptsKeywords sig (kw.map Prod.fst) then .accepted kw body
  else .typeError "TypeError: got an unexpected keyword argument"

/-- Observable side effects of a lifecycle run, in order of occurrence:
status updates POSTed to the orchestrator (state, message, exit_code), log
calls through OrchestratorLogger.log (level and the message handed to log),
the GET of run details, and the instant the user function body starts
running. -/
inductive Event where
  | statusUpdate (state : String) (message : Option String) (exit_code : Option Nat)
  | logMsg (level : String) (message : String)
  | fetchRunDetails
  | userRun
deriving DecidableEq, Repr

/-- How control leaves the wrapper: a normal return, a sys.exit(code)
(SystemExit, uncatchable by except Exception), or an exception propagating
out of the wrapper. -/
inductive RunResult where
  | returned
  | exited (code : Nat)
  | raised (msg : String)
deriving DecidableEq, Repr

/-- The events of the except branch of the wrapper (flow.py lines 209-213):
an ERROR log of the message and full traceback, then the FAILED status
update with exit code 1 and a message embedding the exception text. -/
def failEvents (m tb : String) : List Event :=
  [.logMsg "ERROR" ("Flow execution failed. Error: " ++ m ++ "\n" ++ tb),
   .statusUpdate "FAILED" (some ("Execution error: " ++ m)) (some 1)]

/-- The try/except body of the wrapper (flow.py lines 176-214), entered with
the globals already set up. fetch is the response of CLIENT.get_run_details()
(none for a falsy response), sig the user function signature, body its
behavior, tb the traceback text rendered on failure. Returns the state of
the globals afterwards, the event trace, and how control leaves. -/
def wrapperBody (s : ProcState) (fetch : Option Details) (sig : PySignature)
    (body : UserOutcome) (tb : String) : ProcState × List Event × RunResult :=
  match fetch with
  | none =>
      -- raise RuntimeError("Failed to fetch run details for execution.")
      (s, .fetchRunDetails ::
          failEvents "Failed to fetch run details for execution." tb, .exited 1)
  | some d =>
      -- WORKSPACE_ID = details.get('workspace_id')
      let s1 : ProcState := { s with workspaceId := d.workspace_id }
      if s1.ctxClassInit then
        -- the re-entrancy guard (flow.py lines 196-198)
        (s1, .fetchRunDetails ::
            failEvents
              "Flow context already initialized. Ensure the flow decorator is used only once."
              tb, .exited 1)
      else
        -- FlowContext.from_dict(details) builds an instance that is
        -- discarded; no global or class-level state changes (flow.py 200)
        match callUser sig (flowKwargs d s1.workspaceId) body with
        | .accepted _ .normal =>
            (s1, [.fetchRunDetails, .userRun,
                  .logMsg "INFO" "Flow finished execution successfully.",
                  .statusUpdate "COMPLETED" none (some 0)], .returned)
        | .accepted _ (.raises m) =>
            (s1, .fetchRunDetails :: .userRun :: failEvents m tb, .exited 1)
        | .typeError m =>
            (s1, .fetchRunDetails :: failEvents m tb, .exited 1)

/-- Embeds the wrapper closure of the flow decorator (flow.py lines 157-214).
If the global CLIENT is unset it reads the three environment variables and
raises EnvironmentError when any is missing or empty; otherwise it
constructs CLIENT and LOGGER; then it runs the try/except body. -/
def wrapper (env : Env) (fetch : Option Details) (sig : PySignature)
    (body : UserOutcome) (tb : String) (s : ProcState) :
    ProcState × List Event × RunResult :=
  if s.client.isNone then
    if envComplete env then
      wrapperBody { s with client := env.run_id, loggerSet := true }
        fetch sig body tb
    else
      (s, [], .raised "Flow cannot run. Orchestration environment variables are missing.")
  else
    wrapperBody s fetch sig body tb

/-- The events of the except branch of execute_lastcron_flow (client.py
lines 87-90): an ERROR log with the traceback, then the FAILED update. -/
def bootstrapFailEvents (m tb : String) : List Event :=
  [.logMsg "ERROR" ("Execution failed during bootstrap or pre-run phase: " ++ m ++ "\n" ++ tb),
   .statusUpdate "FAILED" (some ("Bootstrap/Pre-run error: " ++ m)) (some 1)]

/-- Embeds execute_lastcron_flow (src/lastcron_sdk/client.py lines 46-95)
followed by the decorated flow it imports and calls. It first POSTs the
RUNNING status update and an INFO log, then fetches run details (response
fetch1); on success it imports the entrypoint module and calls the decorated
flow function, i.e. the wrapper (which re-reads the environment and
re-fetches details, response fetch2). The dynamic import itself is assumed
to succeed and to resolve to the decorated function. An exception
propagating from the wrapper is caught by except Exception and reported; a
SystemExit from the wrapper is not an Exception and passes through. -/
def execute_lastcron_flow (env : Env) (fetch1 : Option Details)
    (fetch2 : Option Details) (sig : PySignature) (body : UserOutcome)
    (tb tb2 : String) (s : ProcState) : ProcState × List Event × RunResult :=
  let rid := env.run_id.getD ""
  let ev0 : List Event :=
    [.statusUpdate "RUNNING" none none,
     .logMsg "INFO" ("LastCron execution started for Run ID: " ++ rid ++ ".")]
  match fetch1 with
  | none =>
      (s, ev0 ++ [.fetchRunDetails] ++
          bootstrapFailEvents "Could not retrieve run details from API." tb2,
       .exited 1)
  | some _ =>
      match (wrapper env fetch2 sig body tb s).2.2 with
      | .raised m =>
          ((wrapper env fetch2 sig body tb s).1,
           ev0 ++ [.fetchRunDetails] ++ (wrapper env fetch2 sig body tb s).2.1 ++
             bootstrapFailEvents m tb2,
           .exited 1)
      | r =>
          ((wrapper env fetch2 sig body tb s).1,
           ev0 ++ [.fetchRunDetails] ++ (wrapper env fetch2 sig body tb s).2.1, r)

/-- Embeds get_block (src/lastcron_sdk/flow.py lines 303-345). If the global
CLIENT is unset it raises RuntimeError; otherwise it returns the response of
CLIENT.api.get_block(run_id, key_name) unchanged. The second component of
the successful result is the list of values registered into the Logger's
secret denylist during the call: the source registers nothing (the returned
block is passed straight through and the logger in src/lastcron_sdk has no
denylist attribute at all), so it is always empty. -/
def get_block (s : ProcState) (apiResp : Option Block) :
    Except String (Option Block × List String) :=
  if s.client.isNone then
    .error "get_block() can only be called from within a flow execution context. Ensure you are calling this from within a flow decorated function."
  else
    .ok (apiResp, [])

/-- Outcome of the call CLIENT.api.trigger_flow_by_name(...): a returned
value (possibly falsy, i.e. none), or a raised ValueError, TypeError, or
other exception. -/
inductive ApiResult where
  | ok (r : Option FlowRun)
  | raiseValue (m : String)
  | raiseType (m : String)
  | raiseOther (m : String)
deriving DecidableEq, Repr

/-- The parameters argument of a cross-flow trigger call, classified by
shape: absent, a key-value mapping, or a value of non-mapping type. -/
inductive ParamArg where
  | absent
  | mapping (m : List (String × String))
  | nonMapping
deriving DecidableEq, Repr

/-- The scheduled_start argument of a cross-flow trigger call, classified:
absent (immediate start), a parseable point strictly in the future, a
past-dated point, or an unparseable string. -/
inductive SchedArg where
  | absent
  | future
  | past
  | malformed
deriving DecidableEq, Repr

/-- Removal of surrounding whitespace, the way str.strip() does it. -/
def pyStrip (s : String) : String :=
  String.mk (((s.toList.dropWhile Char.isWhitespace).reverse.dropWhile
    Char.isWhitespace).reverse)

/-- Modelled from the spec: APIClient.trigger_flow_by_name belongs to this
repository (lastcron_sdk/api_client.py, imported by lastcron_sdk/__init__.py
and mocked in tests/conftest.py) but its source is not under src/. Per spec
section 4.4 it validates client-side before sending the request: an
empty-after-trimming flow name is a validation failure (ValueError);
parameters of non-mapping type are a type-error failure (TypeError); a
past-dated or unparseable scheduled_start is a validation failure
(ValueError); a flow name that resolves to no flow is a lookup failure
(ValueError, matching the comment Flow not found or validation error at
flow.py line 432). Otherwise the orchestrator response resp is returned. -/
def trigger_flow_by_name (flow_name : String) (p : ParamArg) (sched : SchedArg)
    (flowFound : Bool) (resp : Option FlowRun) : ApiResult :=
  if pyStrip flow_name = "" then .raiseValue "Flow name cannot be empty"
  else
    match p with
    | .nonMapping => .raiseType "parameters must be a mapping"
    | _ =>
      match sched with
      | .past => .raiseValue "scheduled_start must be in the future"
      | .malformed => .raiseValue "Invalid timestamp format"
      | _ =>
        if flowFound then .ok resp
        else .raiseValue ("Flow " ++ flow_name ++ " not found")

/-- Embeds run_flow (src/lastcron_sdk/flow.py lines 347-442). Raises
RuntimeError when the global CLIENT or WORKSPACE_ID is unset; otherwise logs
the attempt, calls the API (outcome api), and converts every exception from
the call into a logged error plus a None result. Returns the outcome
(error = exception propagating to the caller) and the log events emitted. -/
def run_flow (s : ProcState) (flow_name : String) (api : ApiResult) :
    Except String (Option FlowRun) × List Event :=
  if s.client.isNone then
    (.error "run_flow() can only be called from within a flow execution context. Ensure you are calling this from within a flow decorated function.",
     [])
  else if s.workspaceId.isNone then
    (.error "Workspace ID not available in flow context. This should not happen - please check the flow initialization.",
     [])
  else
    let w := s.workspaceId.getD 0
    let ev0 : List Event :=
      [.logMsg "INFO" ("Triggering flow " ++ flow_name ++ " in workspace " ++ toString w)]
    match api with
    | .ok (some r) =>
        (.ok (some r),
         ev0 ++ [.logMsg "INFO" ("Successfully triggered flow " ++ flow_name ++
           ". Run ID: " ++ toString r.id ++ ", State: " ++ r.state)])
    | .ok none =>
        (.ok none,
         ev0 ++ [.logMsg "ERROR" ("Failed to trigger flow " ++ flow_name ++ " - API returned None")])
    | .raiseValue m =>
        (.ok none,
         ev0 ++ [.logMsg "ERROR" ("Failed to trigger flow " ++ flow_name ++ ": " ++ m)])
    | .raiseType m =>
        (.ok none,
         ev0 ++ [.logMsg "ERROR" ("Invalid parameters for flow " ++ flow_name ++ ": " ++ m)])
    | .raiseOther m =>
        (.ok none,
         ev0 ++ [.logMsg "ERROR" ("Unexpected error triggering flow " ++ flow_name ++ ": " ++ m)])

namespace FlowWrapper

/-- Embeds FlowWrapper.submit (src/lastcron_sdk/flow.py lines 76-135).
Raises RuntimeError when CLIENT or WORKSPACE_ID is unset; otherwise calls
CLIENT.api.trigger_flow_by_name with this flow's own registered name, with
no try/except around the call: a falsy result yields None, a successful
result is converted to a FlowRun, and any exception raised by the call
propagates to the caller. -/
def submit (s : ProcState) (api : ApiResult) : Except String (Option FlowRun) :=
  if s.client.isNone then
    .error "submit() can only be called from within a flow execution context. Ensure you are calling this from within a flow decorated function."
  else if s.workspaceId.isNone then
    .error "Workspace ID not available in flow context. This should not happen - please check the flow initialization."
  else
    match api with
    | .ok (some r) => .ok (some r)
    | .ok none => .ok none
    | .raiseValue m => .error ("ValueError: " ++ m)
    | .raiseType m => .error ("TypeError: " ++ m)
    | .raiseOther m => .error m

end FlowWrapper

/-- One entry of the module-level registry _REGISTERED_FLOWS: the flow name
and the __module__ attribute of the undecorated function. -/
structure RegisteredFlow where
  name : String
  module : String
deriving DecidableEq, Repr

/-- Embeds _setup_auto_execution (flow.py lines 226-254): given whether the
setup already ran and the environment, returns the new value of
_AUTO_EXECUTE_SETUP and whether an atexit handler was registered by this
call (only on the first call and only when all three environment variables
are present). -/
def setup_auto_execution (alreadySetup : Bool) (env : Env) : Bool × Bool :=
  if alreadySetup then (true, false)
  else (true, envComplete env)

/-- Embeds the selection logic of _auto_execute_flow (flow.py lines
257-291): given whether __main__ has a __file__ attribute, the path of the
main file, and the registry in declaration order, returns the name of the
flow that gets invoked (if any) and the warning printed to stderr (if any).
The flows whose defining module is __main__ are the candidates; the first
declared candidate is invoked; a warning naming it is printed when there is
more than one candidate. -/
def auto_execute_flow (hasMainFile : Bool) (mainFile : String)
    (registered : List RegisteredFlow) : Option String × Option String :=
  if !hasMainFile then (none, none)
  else
    match registered.filter (fun f => f.module == "__main__") with
    | [] => (none, none)
    | f :: rest =>
        (some f.name,
         if rest.isEmpty then none
         else some ("Warning: Multiple flows found in " ++ mainFile ++
           ". Executing: " ++ f.name))

/-- Counts the status updates to a given state in a trace. -/
def countStatus (tr : List Event) (st : String) : Nat :=
  (tr.filter (fun e => match e with
    | .statusUpdate s _ _ => s == st
    | _ => false)).length

/-- The status updates to a given state in a trace, in order. -/
def statusUpdates (tr : List Event) (st : String) : List Event :=
  tr.filter (fun e => match e with
    | .statusUpdate s _ _ => s == st
    | _ => false)

/-- The process states reachable from a fresh interpreter by running
lifecycle invocations (directly decorated calls, or the orchestrator entry
point execute_lastcron_flow) with arbitrary environments, API responses and
user functions. The other public operations (get_block, run_flow, submit,
get_run_logger) read but never write the process state. -/
inductive Reachable : ProcState → Prop where
  | init : Reachable initialState
  | wrapperStep {s} (env fetch sig body tb) (h : Reachable s) :
      Reachable (wrapper env fetch sig body tb s).1
  | executeStep {s} (env fetch1 fetch2 sig body tb tb2) (h : Reachable s) :
      Reachable (execute_lastcron_flow env fetch1 fetch2 sig body tb tb2 s).1

deriving instance DecidableEq for Except

/-- A fully populated orchestration environment. -/
def envX : Env :=
  { run_id := some "run-42", token := some "tok", api_base := some "https://api.example.com" }

/-- A successful run-details response. -/
def detailsX : Details :=
  { parameters := [("k", "v")], blocks := [], workspace_id := some 7,
    flow_entrypoint := "src/pipeline.py:main_flow" }

/-- A user function declared as def f(**params), the shape used throughout
the repository's examples. -/
def sigKwargsX : PySignature := { keywords := [], hasKwargs := true }

/-- The process state after a successful lifecycle bootstrap: CLIENT,
LOGGER and WORKSPACE_ID set, FlowContext class attributes untouched. -/
def goodState : ProcState :=
  { client := some "run-42", loggerSet := true, workspaceId := some 7,
    ctxClassInit := false, ctxClassLogger := false }

/-- A Block whose secret flag is set. -/
def secretBlockX : Block :=
  { id := 1, workspace_id := some 100, key_name := "api-key",
    type_tag := "STRING", value := "hunter2", is_secret := true }

/-- C2. Invoking two decorated flows sequentially in one process is claimed
to raise the re-entrancy error on the second invocation. The code does not:
the guard tests the class attribute FlowContext.initialized, which the
constructor never sets (it sets an instance attribute on an object the
wrapper discards), so the second invocation passes the guard, runs the user
function again and completes normally. -/
theorem second_invocation_runs_user_function_again :
    (wrapper envX (some detailsX) sigKwargsX .normal "tb" initialState).2.2 = .returned ∧
    (wrapper envX (some detailsX) sigKwargsX .normal "tb" initialState).1.ctxClassInit = false ∧
    (wrapper envX (some detailsX) sigKwargsX .normal "tb"
      (wrapper envX (some detailsX) sigKwargsX .normal "tb" initialState).1).2.2 = .returned ∧
    Event.userRun ∈ (wrapper envX (some detailsX) sigKwargsX .normal "tb"
      (wrapper envX (some detailsX) sigKwargsX .normal "tb" initialState).1).2.1 ∧
    countStatus ((wrapper envX (some detailsX) sigKwargsX .normal "tb"
      (wrapper envX (some detailsX) sigKwargsX .normal "tb" initialState).1).2.1) "FAILED" = 0 := by
  refine ⟨rfl, rfl, rfl, ?_, rfl⟩
  simp [wrapper, wrapperBody, envComplete, truthy, envX, detailsX, initialState,
    sigKwargsX, callUser, acceptsKeywords, flowKwargs]

/-- C3. get_block is claimed to add the value of a fetched secret Block to
the Logger's secret denylist before returning it. The code does not: the
block returned by the API is passed straight through and nothing is
registered anywhere (the src logger has no denylist). The not-found half of
the claim does hold: a not-found response yields None without an exception
and without registering anything. -/
theorem get_block_registers_no_secret :
    get_block goodState (some secretBlockX) = .ok (some secretBlockX, []) ∧
    secretBlockX.is_secret = true ∧
    get_block goodState none = .ok (none, []) :=
  ⟨rfl, rfl, rfl⟩

/-- C5. submit is claimed to behave like run_flow, returning None on any
validation or lookup failure instead of letting an exception propagate. The
code has no try/except in submit: the same ValueError raised by the API
client's validation (here: a past-dated scheduled_start) that run_flow
converts to None propagates out of submit to the caller. -/
theorem submit_propagates_validation_error :
    FlowWrapper.submit goodState
        (trigger_flow_by_name "target_flow" .absent .past true none)
      = .error "ValueError: scheduled_start must be in the future" ∧
    (run_flow goodState "target_flow"
        (trigger_flow_by_name "target_flow" .absent .past true none)).1
      = .ok none ∧
    FlowWrapper.submit goodState (trigger_flow_by_name "target_flow" .absent .future true
        (some { id := 9, flow_id := 3, workspace_id := 7, state := "PENDING",
                parameters := [], scheduled_start := none }))
      = .ok (some { id := 9, flow_id := 3, workspace_id := 7, state := "PENDING",
                    parameters := [], scheduled_start := none }) := by
  refine ⟨?_, ?_, ?_⟩ <;> decide

/-- A user function declared with its own business parameters and no
catch-all, as in the repository's clean-signature examples:
def send_notification(recipient, message). -/
def bizSigX : PySignature := { keywords := ["recipient", "message"], hasKwargs := false }

/-- A user function declaring exactly the four fixed keyword slots. -/
def fixedSigX : PySignature :=
  { keywords := ["parameters", "blocks", "logger", "workspace_id"], hasKwargs := false }

/-- Run details whose parameters match the business-parameter function. -/
def detailsBizX : Details :=
  { parameters := [("recipient", "admin"), ("message", "hi")], blocks := [],
    workspace_id := some 7, flow_entrypoint := "f.py:send_notification" }

/-- C9. The wrapper is claimed to dispatch on the user function's declared
signature, giving a business-parameter function the fetched run parameters
directly as keyword arguments. The code always passes the same four fixed
keywords (parameters, blocks, logger, workspace_id): a fixed-slot function
receives those four values, but a function declaring only its own business
parameters raises TypeError before its body runs, and the run fails. -/
theorem wrapper_passes_fixed_kwargs_only :
    callUser fixedSigX (flowKwargs detailsBizX (some 7)) .normal
      = .accepted
          [("parameters", .params [("recipient", "admin"), ("message", "hi")]),
           ("blocks", .blockList []), ("logger", .loggerObj),
           ("workspace_id", .wsid (some 7))] .normal ∧
    callUser bizSigX (flowKwargs detailsBizX (some 7)) .normal
      = .typeError "TypeError: got an unexpected keyword argument" ∧
    (wrapper envX (some detailsBizX) bizSigX .normal "tb" initialState).2.2 = .exited 1 ∧
    Event.userRun ∉ (wrapper envX (some detailsBizX) bizSigX .normal "tb" initialState).2.1 ∧
    countStatus (wrapper envX (some detailsBizX) bizSigX .normal "tb" initialState).2.1
      "FAILED" = 1 := by
  refine ⟨by decide, by decide, rfl, by decide, rfl⟩

/-- No branch of the wrapper body writes the class-level attributes of
FlowContext: only the global WORKSPACE_ID is updated. -/
theorem wrapperBody_preserves_ctx (s : ProcState) (fetch : Option Details)
    (sig : PySignature) (body : UserOutcome) (tb : String) :
    (wrapperBody s fetch sig body tb).1.ctxClassInit = s.ctxClassInit ∧
    (wrapperBody s fetch sig body tb).1.ctxClassLogger = s.ctxClassLogger := by
  unfold wrapperBody
  cases fetch with
  | none => exact ⟨rfl, rfl⟩
  | some d =>
    dsimp only
    split
    · exact ⟨rfl, rfl⟩
    · split <;> exact ⟨rfl, rfl⟩

/-- The wrapper writes only CLIENT, LOGGER and WORKSPACE_ID; the class-level
attributes of FlowContext are untouched by a lifecycle invocation. -/
theorem wrapper_preserves_ctx (env : Env) (fetch : Option Details)
    (sig : PySignature) (body : UserOutcome) (tb : String) (s : ProcState) :
    (wrapper env fetch sig body tb s).1.ctxClassInit = s.ctxClassInit ∧
    (wrapper env fetch sig body tb s).1.ctxClassLogger = s.ctxClassLogger := by
  unfold wrapper
  split
  · split
    · exact wrapperBody_preserves_ctx
        { s with client := env.run_id, loggerSet := true } fetch sig body tb
    · exact ⟨rfl, rfl⟩
  · exact wrapperBody_preserves_ctx s fetch sig body tb

/-- The orchestrator entry point also leaves the class-level attributes of
FlowContext untouched. -/
theorem execute_preserves_ctx (env : Env) (fetch1 fetch2 : Option Details)
    (sig : PySignature) (body : UserOutcome) (tb tb2 : String) (s : ProcState) :
    (execute_lastcron_flow env fetch1 fetch2 sig body tb tb2 s).1.ctxClassInit
      = s.ctxClassInit ∧
    (execute_lastcron_flow env fetch1 fetch2 sig body tb tb2 s).1.ctxClassLogger
      = s.ctxClassLogger := by
  unfold execute_lastcron_flow
  cases fetch1 with
  | none => exact ⟨rfl, rfl⟩
  | some d =>
    dsimp only
    split <;> exact wrapper_preserves_ctx env fetch2 sig body tb s

/-- C10. In every reachable state of the process the class-level flag
FlowContext.initialized tested by get_run_logger is still False and the
class-level logger attribute was never populated, because the FlowContext
constructor only sets an instance attribute on an object the lifecycle
discards; hence get_run_logger always raises the Flow-context-not-set
RuntimeError, and the guard of the wrapper can never pass. -/
theorem get_run_logger_always_raises (s : ProcState) (d : Details)
    (h : Reachable s) :
    s.ctxClassInit = false ∧ s.ctxClassLogger = false ∧
    get_run_logger s =
      .error "Flow context not initialized. Ensure the flow decorator is used." ∧
    (FlowContext.from_dict d).initialized = true := by
  have key : s.ctxClassInit = false ∧ s.ctxClassLogger = false := by
    induction h with
    | init => exact ⟨rfl, rfl⟩
    | @wrapperStep s0 env fetch sig body tb h ih =>
        have hp := wrapper_preserves_ctx env fetch sig body tb s0
        exact ⟨hp.1.trans ih.1, hp.2.trans ih.2⟩
    | @executeStep s0 env fetch1 fetch2 sig body tb tb2 h ih =>
        have hp := execute_preserves_ctx env fetch1 fetch2 sig body tb tb2 s0
        exact ⟨hp.1.trans ih.1, hp.2.trans ih.2⟩
  refine ⟨key.1, key.2, ?_, rfl⟩
  unfold get_run_logger
  simp [key.1]

/-- Witness for C10 at the state reached by one successful lifecycle run
from a fresh process (and, in particular, at the fresh state itself). -/
theorem get_run_logger_always_raises_witness :
    (wrapper envX (some detailsX) sigKwargsX .normal "tb" initialState).1.ctxClassInit
        = false ∧
    (wrapper envX (some detailsX) sigKwargsX .normal "tb" initialState).1.ctxClassLogger
        = false ∧
    get_run_logger (wrapper envX (some detailsX) sigKwargsX .normal "tb" initialState).1 =
      .error "Flow context not initialized. Ensure the flow decorator is used." ∧
    (FlowContext.from_dict detailsX).initialized = true :=
  get_run_logger_always_raises
    (wrapper envX (some detailsX) sigKwargsX .normal "tb" initialState).1 detailsX
    (Reachable.wrapperStep envX (some detailsX) sigKwargsX .normal "tb" Reachable.init)

/-- True when the call outcome is an exception propagating to the caller. -/
def exceptIsError : Except String (Option FlowRun) → Bool
  | .error _ => true
  | .ok _ => false

/-- The number of ERROR-level log lines in a trace. -/
def errorLogCount (tr : List Event) : Nat :=
  (tr.filter (fun e => match e with
    | .logMsg level _ => level == "ERROR"
    | _ => false)).length

/-- run_flow propagates an exception to its caller exactly when the global
CLIENT or WORKSPACE_ID is unset; with both set, every outcome of the API
call (including a raised exception) is converted into a returned value. -/
theorem run_flow_raises_iff (s : ProcState) (nm : String) (api : ApiResult) :
    exceptIsError (run_flow s nm api).1 =
      (s.client.isNone || s.workspaceId.isNone) := by
  unfold run_flow
  by_cases h1 : s.client.isNone
  · simp [h1, exceptIsError]
  · by_cases h2 : s.workspaceId.isNone
    · simp [h1, h2, exceptIsError]
    · simp only [h1, h2, Bool.false_eq_true, if_false, Bool.or_self]
      rcases api with (_ | _) | m | m | m <;> simp [exceptIsError]

/-- C4. With a session established (CLIENT and WORKSPACE_ID set), run_flow
returns None and does not raise for every validation or lookup failure of
the cross-flow trigger — empty flow name, non-mapping parameters, past-dated
scheduled_start, unparseable timestamp string, or flow not found — logging
exactly one ERROR line for the failure; and run_flow raises directly exactly
when the session context (CLIENT) or the workspace id is absent. -/
theorem run_flow_failure_returns_none (s : ProcState) (flow_name : String)
    (p : ParamArg) (sched : SchedArg) (flowFound : Bool) (resp : Option FlowRun)
    (s2 : ProcState) (nm2 : String) (api2 : ApiResult)
    (hc : s.client.isSome = true) (hw : s.workspaceId.isSome = true)
    (hbad : pyStrip flow_name = "" ∨ p = .nonMapping ∨ sched = .past ∨
      sched = .malformed ∨ flowFound = false) :
    (run_flow s flow_name
        (trigger_flow_by_name flow_name p sched flowFound resp)).1 = .ok none ∧
    errorLogCount (run_flow s flow_name
        (trigger_flow_by_name flow_name p sched flowFound resp)).2 = 1 ∧
    exceptIsError (run_flow s2 nm2 api2).1 =
      (s2.client.isNone || s2.workspaceId.isNone) := by
  have h1 : s.client.isNone = false := by
    cases hv : s.client <;> simp_all
  have h2 : s.workspaceId.isNone = false := by
    cases hv : s.workspaceId <;> simp_all
  have hraise : (∃ m, trigger_flow_by_name flow_name p sched flowFound resp
      = .raiseValue m) ∨
      (∃ m, trigger_flow_by_name flow_name p sched flowFound resp = .raiseType m) := by
    by_cases ht : pyStrip flow_name = ""
    · exact Or.inl ⟨"Flow name cannot be empty", by simp [trigger_flow_by_name, ht]⟩
    · rcases hbad with hbad | hbad | hbad | hbad | hbad
      · exact absurd hbad ht
      · subst hbad
        exact Or.inr ⟨"parameters must be a mapping", by simp [trigger_flow_by_name, ht]⟩
      · subst hbad
        rcases p with _ | q | _
        · exact Or.inl ⟨"scheduled_start must be in the future",
            by simp [trigger_flow_by_name, ht]⟩
        · exact Or.inl ⟨"scheduled_start must be in the future",
            by simp [trigger_flow_by_name, ht]⟩
        · exact Or.inr ⟨"parameters must be a mapping", by simp [trigger_flow_by_name, ht]⟩
      · subst hbad
        rcases p with _ | q | _
        · exact Or.inl ⟨"Invalid timestamp format", by simp [trigger_flow_by_name, ht]⟩
        · exact Or.inl ⟨"Invalid timestamp format", by simp [trigger_flow_by_name, ht]⟩
        · exact Or.inr ⟨"parameters must be a mapping", by simp [trigger_flow_by_name, ht]⟩
      · subst hbad
        rcases p with _ | q | _
        · rcases sched with _ | _ | _ | _
          · exact Or.inl ⟨"Flow " ++ flow_name ++ " not found",
              by simp [trigger_flow_by_name, ht]⟩
          · exact Or.inl ⟨"Flow " ++ flow_name ++ " not found",
              by simp [trigger_flow_by_name, ht]⟩
          · exact Or.inl ⟨"scheduled_start must be in the future",
              by simp [trigger_flow_by_name, ht]⟩
          · exact Or.inl ⟨"Invalid timestamp format", by simp [trigger_flow_by_name, ht]⟩
        · rcases sched with _ | _ | _ | _
          · exact Or.inl ⟨"Flow " ++ flow_name ++ " not found",
              by simp [trigger_flow_by_name, ht]⟩
          · exact Or.inl ⟨"Flow " ++ flow_name ++ " not found",
              by simp [trigger_flow_by_name, ht]⟩
          · exact Or.inl ⟨"scheduled_start must be in the future",
              by simp [trigger_flow_by_name, ht]⟩
          · exact Or.inl ⟨"Invalid timestamp format", by simp [trigger_flow_by_name, ht]⟩
        · exact Or.inr ⟨"parameters must be a mapping", by simp [trigger_flow_by_name, ht]⟩

  refine ⟨?_, ?_, run_flow_raises_iff s2 nm2 api2⟩ <;>
    · rcases hraise with ⟨m, hm⟩ | ⟨m, hm⟩ <;>
        simp [run_flow, h1, h2, hm, errorLogCount]

/-- Witness for C4: an empty flow name against an established session
yields None with one ERROR log, and a fresh session-less state makes
run_flow raise. -/
theorem run_flow_failure_returns_none_witness :
    (goodState.client.isSome = true ∧ goodState.workspaceId.isSome = true ∧
      pyStrip "" = "") ∧
    ((run_flow goodState ""
        (trigger_flow_by_name "" .absent .absent true none)).1 = .ok none ∧
     errorLogCount (run_flow goodState ""
        (trigger_flow_by_name "" .absent .absent true none)).2 = 1 ∧
     exceptIsError (run_flow initialState "x" (.ok none)).1 =
       (initialState.client.isNone || initialState.workspaceId.isNone)) :=
  ⟨⟨rfl, rfl, rfl⟩,
   run_flow_failure_returns_none goodState "" .absent .absent true none
     initialState "x" (.ok none) rfl rfl (Or.inl rfl)⟩

/-- A string always occurs as a substring at the end of an append. -/
theorem strContains_append_left (a m : String) : strContains (a ++ m) m = true := by
  unfold strContains
  rw [List.any_eq_true]
  refine ⟨m.toList, ?_, by simp⟩
  rw [List.mem_tails]
  show m.toList <:+ (a ++ m).toList
  have h : (a ++ m).toList = a.toList ++ m.toList := String.data_append a m
  rw [h]
  exact List.suffix_append _ _

/-- Evaluation of the wrapper try/except body when the fetch succeeds, the
guard is (as always) passed, the signature accepts the four fixed keywords,
and the user function raises. -/
theorem wrapperBody_accepted_raises (s : ProcState) (d : Details)
    (sig : PySignature) (m tb : String) (hctx : s.ctxClassInit = false)
    (hsig : acceptsKeywords sig ["parameters", "blocks", "logger", "workspace_id"] = true) :
    wrapperBody s (some d) sig (.raises m) tb =
      ({ s with workspaceId := d.workspace_id },
       [.fetchRunDetails, .userRun,
        .logMsg "ERROR" ("Flow execution failed. Error: " ++ m ++ "\n" ++ tb),
        .statusUpdate "FAILED" (some ("Execution error: " ++ m)) (some 1)],
       .exited 1) := by
  simp [wrapperBody, hctx, callUser, flowKwargs, hsig, failEvents]

/-- C6. If the user function raises any exception after session
construction, the lifecycle logs the exception message with the full trace
at ERROR level, reports exactly one FAILED status update with exit code 1
and a message embedding the exception text (which therefore occurs in the
message as a substring), sends no COMPLETED update, and terminates the
process with exit code 1. -/
theorem user_exception_reports_failed (env : Env) (d : Details)
    (sig : PySignature) (m tb : String) (s : ProcState)
    (hsess : s.client.isSome = true ∨ envComplete env = true)
    (hctx : s.ctxClassInit = false)
    (hsig : acceptsKeywords sig ["parameters", "blocks", "logger", "workspace_id"] = true) :
    (wrapper env (some d) sig (.raises m) tb s).2.2 = .exited 1 ∧
    statusUpdates (wrapper env (some d) sig (.raises m) tb s).2.1 "FAILED" =
      [.statusUpdate "FAILED" (some ("Execution error: " ++ m)) (some 1)] ∧
    countStatus (wrapper env (some d) sig (.raises m) tb s).2.1 "COMPLETED" = 0 ∧
    Event.logMsg "ERROR" ("Flow execution failed. Error: " ++ m ++ "\n" ++ tb)
      ∈ (wrapper env (some d) sig (.raises m) tb s).2.1 ∧
    strContains ("Execution error: " ++ m) m = true := by
  by_cases hcn : s.client.isNone
  · have henv : envComplete env = true := by
      rcases hsess with h | h
      · cases hv : s.client <;> simp_all
      · exact h
    have hw : wrapper env (some d) sig (.raises m) tb s =
        wrapperBody { s with client := env.run_id, loggerSet := true }
          (some d) sig (.raises m) tb := by
      simp [wrapper, hcn, henv]
    rw [hw, wrapperBody_accepted_raises
      { s with client := env.run_id, loggerSet := true } d sig m tb hctx hsig]
    exact ⟨rfl, rfl, rfl, by simp, strContains_append_left _ _⟩
  · have hw : wrapper env (some d) sig (.raises m) tb s =
        wrapperBody s (some d) sig (.raises m) tb := by
      simp [wrapper, hcn]
    rw [hw, wrapperBody_accepted_raises s d sig m tb hctx hsig]
    exact ⟨rfl, rfl, rfl, by simp, strContains_append_left _ _⟩

/-- Witness for C6: a user function raising ValueError boom under a fully
set environment in a fresh process. -/
theorem user_exception_reports_failed_witness :
    (envComplete envX = true ∧ initialState.ctxClassInit = false ∧
      acceptsKeywords sigKwargsX ["parameters", "blocks", "logger", "workspace_id"] = true) ∧
    ((wrapper envX (some detailsX) sigKwargsX (.raises "boom") "tb" initialState).2.2
        = .exited 1 ∧
     statusUpdates (wrapper envX (some detailsX) sigKwargsX (.raises "boom") "tb"
        initialState).2.1 "FAILED" =
       [.statusUpdate "FAILED" (some ("Execution error: " ++ "boom")) (some 1)] ∧
     countStatus (wrapper envX (some detailsX) sigKwargsX (.raises "boom") "tb"
        initialState).2.1 "COMPLETED" = 0 ∧
     Event.logMsg "ERROR" ("Flow execution failed. Error: " ++ "boom" ++ "\n" ++ "tb")
       ∈ (wrapper envX (some detailsX) sigKwargsX (.raises "boom") "tb" initialState).2.1 ∧
     strContains ("Execution error: " ++ "boom") "boom" = true) :=
  ⟨⟨rfl, rfl, rfl⟩,
   user_exception_reports_failed envX detailsX sigKwargsX "boom" "tb" initialState
     (Or.inr rfl) rfl rfl⟩

/-- Evaluation of the wrapper try/except body when the fetch succeeds, the
guard is passed, the signature accepts the four fixed keywords, and the
user function returns normally. -/
theorem wrapperBody_accepted_normal (s : ProcState) (d : Details)
    (sig : PySignature) (tb : String) (hctx : s.ctxClassInit = false)
    (hsig : acceptsKeywords sig ["parameters", "blocks", "logger", "workspace_id"] = true) :
    wrapperBody s (some d) sig .normal tb =
      ({ s with workspaceId := d.workspace_id },
       [.fetchRunDetails, .userRun,
        .logMsg "INFO" "Flow finished execution successfully.",
        .statusUpdate "COMPLETED" none (some 0)],
       .returned) := by
  simp [wrapperBody, hctx, callUser, flowKwargs, hsig]

/-- C7. With all three orchestration environment variables set and the user
function returning normally, a lifecycle invocation through the
orchestrator entry point produces exactly one RUNNING status update — the
very first event, before any run-details fetch — exactly one COMPLETED
update with exit code 0, and zero FAILED updates, and control returns
normally. -/
theorem lifecycle_success_status_updates (env : Env) (d1 d2 : Details)
    (sig : PySignature) (tb tb2 : String)
    (henv : envComplete env = true)
    (hsig : acceptsKeywords sig ["parameters", "blocks", "logger", "workspace_id"] = true) :
    countStatus (execute_lastcron_flow env (some d1) (some d2) sig .normal tb tb2
      initialState).2.1 "RUNNING" = 1 ∧
    statusUpdates (execute_lastcron_flow env (some d1) (some d2) sig .normal tb tb2
      initialState).2.1 "COMPLETED" = [.statusUpdate "COMPLETED" none (some 0)] ∧
    countStatus (execute_lastcron_flow env (some d1) (some d2) sig .normal tb tb2
      initialState).2.1 "FAILED" = 0 ∧
    (execute_lastcron_flow env (some d1) (some d2) sig .normal tb tb2
      initialState).2.1.head? = some (.statusUpdate "RUNNING" none none) ∧
    (execute_lastcron_flow env (some d1) (some d2) sig .normal tb tb2
      initialState).2.2 = .returned := by
  have hw : wrapper env (some d2) sig .normal tb initialState =
      ({ client := env.run_id, loggerSet := true, workspaceId := d2.workspace_id,
         ctxClassInit := false, ctxClassLogger := false },
       [.fetchRunDetails, .userRun,
        .logMsg "INFO" "Flow finished execution successfully.",
        .statusUpdate "COMPLETED" none (some 0)],
       .returned) := by
    have hstep : wrapper env (some d2) sig .normal tb initialState =
        wrapperBody { initialState with client := env.run_id, loggerSet := true }
          (some d2) sig .normal tb := by
      simp [wrapper, henv, initialState]
    rw [hstep, wrapperBody_accepted_normal
      { initialState with client := env.run_id, loggerSet := true } d2 sig tb rfl hsig]
    rfl
  have hx : execute_lastcron_flow env (some d1) (some d2) sig .normal tb tb2
      initialState =
      ({ client := env.run_id, loggerSet := true, workspaceId := d2.workspace_id,
         ctxClassInit := false, ctxClassLogger := false },
       [.statusUpdate "RUNNING" none none,
        .logMsg "INFO" ("LastCron execution started for Run ID: " ++
          env.run_id.getD "" ++ "."),
        .fetchRunDetails, .fetchRunDetails, .userRun,
        .logMsg "INFO" "Flow finished execution successfully.",
        .statusUpdate "COMPLETED" none (some 0)],
       .returned) := by
    simp [execute_lastcron_flow, hw]
  rw [hx]
  exact ⟨rfl, rfl, rfl, rfl, rfl⟩

/-- Witness for C7: a concrete environment, run details and a normally
returning kwargs-style user function. -/
theorem lifecycle_success_status_updates_witness :
    (envComplete envX = true ∧
      acceptsKeywords sigKwargsX ["parameters", "blocks", "logger", "workspace_id"] = true) ∧
    (countStatus (execute_lastcron_flow envX (some detailsX) (some detailsX) sigKwargsX
        .normal "tb" "tb2" initialState).2.1 "RUNNING" = 1 ∧
     statusUpdates (execute_lastcron_flow envX (some detailsX) (some detailsX) sigKwargsX
        .normal "tb" "tb2" initialState).2.1 "COMPLETED" =
       [.statusUpdate "COMPLETED" none (some 0)] ∧
     countStatus (execute_lastcron_flow envX (some detailsX) (some detailsX) sigKwargsX
        .normal "tb" "tb2" initialState).2.1 "FAILED" = 0 ∧
     (execute_lastcron_flow envX (some detailsX) (some detailsX) sigKwargsX
        .normal "tb" "tb2" initialState).2.1.head? =
       some (.statusUpdate "RUNNING" none none) ∧
     (execute_lastcron_flow envX (some detailsX) (some detailsX) sigKwargsX
        .normal "tb" "tb2" initialState).2.2 = .returned) :=
  ⟨⟨rfl, rfl⟩,
   lifecycle_success_status_updates envX detailsX detailsX sigKwargsX "tb" "tb2" rfl rfl⟩

/-- The selection behavior the spec describes for the deferred
auto-execution action, by case on the list of flows declared in the
top-level script: none declared there, nothing happens; exactly one, it is
invoked with no warning; more than one, the first declared is invoked and a
warning naming it is printed. -/
def autoExecutionSpec : List RegisteredFlow → String → Option String × Option String
  | [], _ => (none, none)
  | [f], _ => (some f.name, none)
  | f :: _ :: _, mainFile =>
      (some f.name,
       some ("Warning: Multiple flows found in " ++ mainFile ++ ". Executing: " ++ f.name))

/-- C8. With all three orchestration environment variables present at
declaration time, the deferred auto-execution action is registered, and it
selects the flows whose defining module is the top-level script, behaving
exactly as the per-case description: one candidate is invoked silently,
several candidates invoke only the first declared with a warning naming it,
zero candidates invoke nothing. -/
theorem auto_execution_selects_main_script_flows (env : Env) (mainFile : String)
    (registered : List RegisteredFlow) (henv : envComplete env = true) :
    (setup_auto_execution false env).2 = true ∧
    auto_execute_flow true mainFile registered =
      autoExecutionSpec (registered.filter (fun f => f.module == "__main__"))
        mainFile := by
  refine ⟨by simp [setup_auto_execution, henv], ?_⟩
  cases hf : registered.filter (fun f => f.module == "__main__") with
  | nil => simp [auto_execute_flow, autoExecutionSpec, hf]
  | cons f rest =>
    cases rest with
    | nil => simp [auto_execute_flow, autoExecutionSpec, hf]
    | cons g rest2 => simp [auto_execute_flow, autoExecutionSpec, hf]

/-- An example flow registry: two flows declared in the top-level script,
one imported from a library module. -/
def regsX : List RegisteredFlow :=
  [{ name := "alpha", module := "__main__" },
   { name := "beta", module := "__main__" },
   { name := "gamma", module := "lib.flows" }]

/-- Witness for C8 at a registry with two top-level flows: the first one is
chosen and the warning names it. -/
theorem auto_execution_selects_main_script_flows_witness :
    envComplete envX = true ∧
    ((setup_auto_execution false envX).2 = true ∧
     auto_execute_flow true "/app/script.py" regsX =
       autoExecutionSpec (regsX.filter (fun f => f.module == "__main__"))
         "/app/script.py") :=
  ⟨rfl, auto_execution_selects_main_script_flows envX "/app/script.py" regsX rfl⟩

end LastcronSDK
